import Mathlib

/-!
Verification development for the DCFVALUE stock valuation / growth dashboard
(`src/app.py`). The application fetches provider records (JSON dictionaries of
string or numeric values), coerces selected fields to numbers, computes
year-over-year percentage growth with pandas, and classifies growth values into
colored bands. This file gives a shallow embedding of that computation layer:
Python scalar values become `PyVal`, provider records become association lists,
`float(...)` coercion becomes `pyFloat`, `pd.to_numeric(..., errors="coerce")`
becomes `toNumeric`, and the pandas pipeline (column selection, `dropna`,
`sort_values`, `pct_change`, `iloc[-1]`) becomes explicit list functions.
IEEE special values that the pipeline can produce (`NaN` from 0/0, `inf` from
division by zero) are tracked symbolically by `PFloat`; the rational payload is
exact, which is faithful for the small decimal inputs considered here.
-/

/-- A Python scalar value as it appears in a provider JSON record:
`None`, a number, or a string. -/
inductive PyVal where
  | none
  | num (q : ℚ)
  | str (s : String)
deriving DecidableEq

/-- A provider record (JSON object): an association list from field name to
value. Python dictionaries have unique keys; lookup takes the first match. -/
abbrev Record := List (String × PyVal)

/-- Field lookup, `rec.get(key)` without a default: `some v` when the key is
present, `none` when absent. -/
def lookupField (rec : Record) (key : String) : Option PyVal :=
  (rec.find? (fun kv => kv.1 == key)).map (fun kv => kv.2)

/-- Numeric value of a list of decimal digit characters (most significant
first). -/
def natOfDigits (l : List Char) : Nat :=
  l.foldl (fun n c => n * 10 + (c.toNat - 48)) 0

/-- Split a character list at the first dot, returning the part before it and,
when a dot occurs, the part after it. -/
def splitAtDot : List Char → List Char × Option (List Char)
  | [] => ([], Option.none)
  | c :: cs =>
    if c = '.' then ([], some cs)
    else
      let p := splitAtDot cs
      (c :: p.1, p.2)

/-- Strip leading and trailing whitespace from a character list; models
Python `str.strip()` / the whitespace stripping performed by `float(str)`. -/
def stripChars (l : List Char) : List Char :=
  ((l.dropWhile Char.isWhitespace).reverse.dropWhile Char.isWhitespace).reverse

/-- Parse a decimal numeric literal the way Python `float(str)` accepts plain
sign/digits/point strings: optional surrounding whitespace, optional sign, then
digits with at most one decimal point and at least one digit. Inputs outside
this plain-decimal form (letters, empty strings, a bare dot, several dots) are
rejected, modelling the `ValueError` that `float` raises on them. (Exotic
accepted spellings such as exponents or `inf`/`nan` literals do not occur in
the inputs this development considers and are out of scope of the model.) -/
def parseRat? (s : String) : Option ℚ :=
  let cs := stripChars s.toList
  let sr : ℤ × List Char :=
    match cs with
    | '+' :: t => (1, t)
    | '-' :: t => (-1, t)
    | t => (1, t)
  match splitAtDot sr.2 with
  | (ip, Option.none) =>
    if ip ≠ [] ∧ ip.all Char.isDigit then
      some ((sr.1 : ℚ) * (natOfDigits ip : ℚ))
    else Option.none
  | (ip, some fp) =>
    if (ip ≠ [] ∨ fp ≠ []) ∧ ip.all Char.isDigit ∧ fp.all Char.isDigit then
      some ((sr.1 : ℚ) * ((natOfDigits ip : ℚ) + (natOfDigits fp : ℚ) / (10 ^ fp.length : ℚ)))
    else Option.none

/-- Python `float(v)`: numbers convert, strings parse as decimal literals or
raise `ValueError`, `None` raises `TypeError`. `Except.error` models the raised
exception. -/
def pyFloat : PyVal → Except Unit ℚ
  | PyVal.none => Except.error ()
  | PyVal.num q => Except.ok q
  | PyVal.str s =>
    match parseRat? s with
    | some q => Except.ok q
    | Option.none => Except.error ()

/-- Coercion as in `pd.to_numeric(v, errors="coerce")`: numbers pass through, parseable
strings convert, everything else (including `None` and non-numeric strings
such as Alpha Vantage's literal `"None"`) coerces to NaN, modelled as
`Option.none`. -/
def toNumeric : PyVal → Option ℚ
  | PyVal.none => Option.none
  | PyVal.num q => some q
  | PyVal.str s => parseRat? s

/-- Output of the Valuation Dashboard DCF block (`src/app.py` lines 230-234):
either the warning "DCF data not available." (when `dcf_data` is falsy), or the
two `st.metric` values, each the result of `float(dcf_data.get(field, 0))`
formatted as dollars with two decimals. -/
inductive DcfDisplay where
  | warning
  | metric (dcf stockPrice : Except Unit ℚ)

/-- The number rendered as the DCF valuation: `float(dcf_data.get("dcf", 0))`
with a single-quoted key in the source. A missing "dcf" key falls back to the
default `0`. -/
def dcfMetricValue (rec : Record) : Except Unit ℚ :=
  pyFloat ((lookupField rec "dcf").getD (PyVal.num 0))

/-- The number rendered as the stock price: `float(dcf_data.get("Stock Price", 0))`. -/
def stockPriceValue (rec : Record) : Except Unit ℚ :=
  pyFloat ((lookupField rec "Stock Price").getD (PyVal.num 0))

/-- The DCF block of the Valuation Dashboard: `if dcf_data: ... else:
st.warning("DCF data not available.")` (`src/app.py` lines 230-234). -/
def dcfSection : Option Record → DcfDisplay
  | Option.none => DcfDisplay.warning
  | some rec => DcfDisplay.metric (dcfMetricValue rec) (stockPriceValue rec)

/-- One annual report row as used by the growth pipeline: the
`fiscalDateEnding` string and the one metric column the pipeline selects
(`totalRevenue` for the income statement, `operatingCashflow` for the cash
flow statement). -/
structure Report where
  fiscalDateEnding : String
  metricValue : PyVal
deriving DecidableEq

/-- Year key of a report, `inc_df["fiscalDateEnding"].str[:4]`: the first four
characters of the fiscal date. -/
def yearOf (r : Report) : String := r.fiscalDateEnding.take 4

/-- The cleaning steps of the pipeline (`src/app.py` lines 365-368 / 407-410):
coerce the metric column with `pd.to_numeric(..., errors="coerce")` and drop
the rows where coercion produced NaN (`dropna`). Rows keep their `Year` key.
Note that only non-numeric values are removed: zero and negative values
survive this step. -/
def cleanReports (reports : List Report) : List (String × ℚ) :=
  reports.filterMap (fun r => (toNumeric r.metricValue).map (fun q => (yearOf r, q)))

/-- Lexicographic comparison of character lists, the order underlying string
comparison used by `sort_values("Year")` on the four-character year keys. -/
def charListLt : List Char → List Char → Bool
  | [], [] => false
  | [], _ :: _ => true
  | _ :: _, [] => false
  | a :: as, b :: bs =>
    if a < b then true
    else if b < a then false
    else charListLt as bs

/-- Year-key comparison for sorting. -/
def yearLt (a b : String) : Bool := charListLt a.toList b.toList

/-- Insert one (Year, value) row into an already sorted list, keeping rows
with equal keys in their original relative order. -/
def insertByYear (x : String × ℚ) : List (String × ℚ) → List (String × ℚ)
  | [] => [x]
  | y :: ys => if yearLt y.1 x.1 then y :: insertByYear x ys else x :: y :: ys

/-- Sorting step, `inc_df.sort_values("Year")`: sort the cleaned rows by year, ascending.
(Insertion sort; the year keys in the data considered here are distinct, so
the choice of sorting algorithm does not affect the result.) -/
def sortByYear (l : List (String × ℚ)) : List (String × ℚ) :=
  l.foldr insertByYear []

/-- The metric column after cleaning and sorting, oldest year first: the
series `pct_change` runs over. -/
def sortedValues (reports : List Report) : List ℚ :=
  (sortByYear (cleanReports reports)).map (fun p => p.2)

/-- A pandas float64 cell value: NaN, positive or negative infinity, or an
ordinary (here: rational) number. -/
inductive PFloat where
  | nan
  | inf
  | ninf
  | val (q : ℚ)
deriving DecidableEq

/-- One step of `pct_change() * 100` on consecutive values: float64
`(cur - prev) / prev * 100`. When `prev = 0`, IEEE division produces
`+inf`, `-inf` or `NaN` according to the sign of the numerator — pandas does
not guard this division. -/
def pctChange1 (prev cur : ℚ) : PFloat :=
  if prev = 0 then
    if 0 < cur then PFloat.inf
    else if cur < 0 then PFloat.ninf
    else PFloat.nan
  else PFloat.val ((cur - prev) / prev * 100)

/-- The growth column for consecutive pairs of the sorted series. (The first
row of `pct_change` is NaN and is removed by the subsequent
`dropna(subset=["value"])`, so it is not materialised here.) -/
def growthPairs : List ℚ → List PFloat
  | a :: b :: rest => pctChange1 a b :: growthPairs (b :: rest)
  | _ => []

/-- The growth column after `dropna(subset=["value"])` (`src/app.py`
line 375 / 416): NaN rows are removed, but infinities — which are not NaN —
survive. -/
def growthValues (reports : List Report) : List PFloat :=
  (growthPairs (sortedValues reports)).filter (fun p => p ≠ PFloat.nan)

/-- The divisors used by `pct_change` over the cleaned, sorted series: every
value except the last serves as the `prev` denominator of one quotient. -/
def divisorsUsed (reports : List Report) : List ℚ :=
  (sortedValues reports).dropLast

/-- Result of one growth section of the Growth Stock Screener: `skipped` when
the `len(reports) >= 2` guard fails (`src/app.py` lines 356/362/404),
`indexError` when `iloc[-1]` is evaluated on an empty frame (fewer than two
rows survived cleaning, so every growth row was dropped), and otherwise the
last growth value, which is fed to `color_coded_growth_text`. -/
inductive GrowthOutcome where
  | skipped
  | indexError
  | value (p : PFloat)
deriving DecidableEq

/-- The latest growth figure a growth section reports (`src/app.py` lines
362-399 for revenue, 404-439 for operating cash flow; both sections run the
same pipeline on their respective metric column). -/
def latestGrowth (reports : List Report) : GrowthOutcome :=
  if reports.length < 2 then GrowthOutcome.skipped
  else
    match (growthValues reports).getLast? with
    | Option.none => GrowthOutcome.indexError
    | some p => GrowthOutcome.value p

/-- Output of one iteration of the RATIO_GUIDANCE display loop (`src/app.py`
lines 238-244): the key may be absent from `ratios_data` (no line is
rendered), the value may convert with `float` (formatted to two decimals), or
the conversion may raise, in which case the `except` clause prints the raw
value instead. -/
inductive RatioDisplay where
  | skippedKey
  | formatted (q : ℚ)
  | rawFallback (v : PyVal)

/-- One iteration of the RATIO_GUIDANCE loop: `if key in ratios_data: try:
value = float(ratios_data[key]) ... except: <print raw>`. This site never
propagates an exception. -/
def ratioGuidanceDisplay (rec : Record) (key : String) : RatioDisplay :=
  match lookupField rec key with
  | Option.none => RatioDisplay.skippedKey
  | some v =>
    match pyFloat v with
    | Except.ok q => RatioDisplay.formatted q
    | Except.error _ => RatioDisplay.rawFallback v

/-- Output of one FMP ratio line of the Growth Stock Screener (`src/app.py`
lines 334-343): skipped when the value is `None` or the exact string "N/A";
otherwise `float(value)` is evaluated with no surrounding try/except, so a
non-convertible value raises an uncaught exception. -/
inductive FmpRatioDisplay where
  | skipped
  | formatted (q : ℚ)
  | raised

/-- One FMP ratio line: `v = ratios_data.get(key)`; `if v not in [None, "N/A"]:
st.markdown(f"...: {float(v):.2f}")`. -/
def growthRatioDisplay (rec : Record) (key : String) : FmpRatioDisplay :=
  let v := (lookupField rec key).getD PyVal.none
  if v = PyVal.none ∨ v = PyVal.str "N/A" then FmpRatioDisplay.skipped
  else
    match pyFloat v with
    | Except.ok q => FmpRatioDisplay.formatted q
    | Except.error _ => FmpRatioDisplay.raised

/-- The qualitative label of `color_coded_growth_text` (`src/app.py` lines
444-458): "N/A" for NaN, then Weak / Moderate / Strong bands. -/
inductive GrowthLabel where
  | na
  | weak
  | moderate
  | strong
deriving DecidableEq

/-- Classification of `color_coded_growth_text` (`src/app.py` lines 444-458): NaN renders "N/A";
otherwise `< 10` is Weak (red), `< 20` is Moderate (orange), else Strong
(green). IEEE comparisons put `-inf` in the Weak band and `+inf` in the Strong
band; `pd.isna` is false on infinities. -/
def color_coded_growth_text : PFloat → GrowthLabel
  | PFloat.nan => GrowthLabel.na
  | PFloat.inf => GrowthLabel.strong
  | PFloat.ninf => GrowthLabel.weak
  | PFloat.val q =>
    if q < 10 then GrowthLabel.weak
    else if q < 20 then GrowthLabel.moderate
    else GrowthLabel.strong

/-- A bar color of the growth charts. -/
inductive BarColor where
  | green
  | orange
  | red
deriving DecidableEq

/-- The `growth_color` lambda applied to each chart row (`src/app.py` lines
378-380 and 418-420): `"green" if x >= 20 else "orange" if x >= 10 else
"red"`. IEEE comparisons on NaN are false, so a NaN cell would fall through
to red; `+inf ≥ 20` holds, `-inf ≥ 10` fails. -/
def growth_color : PFloat → BarColor
  | PFloat.nan => BarColor.red
  | PFloat.inf => BarColor.green
  | PFloat.ninf => BarColor.red
  | PFloat.val x =>
    if 20 ≤ x then BarColor.green
    else if 10 ≤ x then BarColor.orange
    else BarColor.red

/-- Label set of the P/E threshold bands. -/
inductive PELabel where
  | undervalued
  | fairlyValued
  | overvalued
deriving DecidableEq

/-- Modelled from the spec: the repository states the P/E bands only as
guidance text ("Below 15 = undervalued, 15-25 = fairly valued, above 25 =
overvalued", `src/app.py` lines 183-184) and implements no P/E classifier;
per the spec the bands are inclusive on the lower bound and exclusive on the
upper bound. -/
def classifyPE (q : ℚ) : PELabel :=
  if q < 15 then PELabel.undervalued
  else if q < 25 then PELabel.fairlyValued
  else PELabel.overvalued

/-- Modelled from the spec: sector-name normalization for the Sector Matcher
(trim whitespace + lowercase). The repository's only sector handling in
`src/app.py` is `get_company_sector` (lines 40-49), which strips the fetched
name but performs no benchmark lookup; the matcher itself is absent from the
source, so it is modelled from the spec's words. Lowercasing is ASCII
case-mapping as in Python `str.lower()` on these inputs. -/
def normalizeSector (s : String) : String :=
  String.mk ((stripChars s.toList).map Char.toLower)

/-- Modelled from the spec: the Sector Matcher returns the benchmark entry
whose normalized key equals the normalized target (case-insensitive exact
match, not fuzzy). -/
def sectorLookup (benchmarks : List (String × ℚ)) (target : String) : Option ℚ :=
  (benchmarks.find? (fun kv => normalizeSector kv.1 == normalizeSector target)).map
    (fun kv => kv.2)

/-- Verdict labels of the relative classification mode. -/
inductive RelVerdict where
  | overvalued
  | undervalued
deriving DecidableEq

/-- Modelled from the spec: relative classification mode compares the entity
value to the benchmark with a strict `>`: above the benchmark is "possibly
overvalued", otherwise (ties included) "possibly undervalued". No such
comparison exists in `src/app.py` (the dashboard in this iteration drops the
sector P/E comparison), so it is modelled from the spec's words. -/
def relativeVerdict (entity benchmark : ℚ) : RelVerdict :=
  if entity > benchmark then RelVerdict.overvalued else RelVerdict.undervalued

/-- Membership is preserved by insertion: an element is in the inserted list
exactly when it is the inserted row or was already present. -/
theorem mem_insertByYear (a x : String × ℚ) (l : List (String × ℚ)) :
    a ∈ insertByYear x l ↔ a = x ∨ a ∈ l := by
  induction l with
  | nil => simp [insertByYear]
  | cons y ys ih =>
    simp only [insertByYear]
    split
    · simp only [List.mem_cons, ih]
      tauto
    · simp only [List.mem_cons]

/-- Sorting is a permutation at the level of membership: the sorted rows are
exactly the cleaned rows. -/
theorem mem_sortByYear (a : String × ℚ) (l : List (String × ℚ)) :
    a ∈ sortByYear l ↔ a ∈ l := by
  induction l with
  | nil => simp [sortByYear]
  | cons y ys ih =>
    show a ∈ insertByYear y (sortByYear ys) ↔ _
    rw [mem_insertByYear]
    simp only [List.mem_cons, ih]

/-- Sector lookup depends on the target only through its normalization. -/
theorem sectorLookup_congr (benchmarks : List (String × ℚ)) (t1 t2 : String)
    (h : normalizeSector t1 = normalizeSector t2) :
    sectorLookup benchmarks t1 = sectorLookup benchmarks t2 := by
  unfold sectorLookup
  rw [h]

/-- C1 counterexample: the claim says a missing requested value is never
rendered as a default numeric value, and in particular a DCF payload without
the "dcf" field is not displayed as $0.00. In the code,
`float(dcf_data.get("dcf", 0))` defaults the missing field to 0, so a payload
that lacks "dcf" (here one carrying only a stock price) renders the DCF
valuation metric as the number 0, formatted $0.00. -/
theorem C1_counterexample :
    lookupField [("Stock Price", PyVal.num 50)] "dcf" = Option.none
    ∧ dcfSection (some [("Stock Price", PyVal.num 50)])
      = DcfDisplay.metric (Except.ok 0) (Except.ok 50) := by
  constructor
  · simp +decide [lookupField]
  · simp +decide [dcfSection, dcfMetricValue, stockPriceValue, lookupField, pyFloat]

/-- C1 (amended): when the whole DCF payload is unavailable the dashboard
shows the "DCF data not available." warning, but when a payload is present
with the "dcf" field absent, the field defaults to 0 and the DCF valuation is
displayed as $0.00 rather than as a not-available message. -/
theorem C1_missing_dcf_renders_zero (rec : Record)
    (h : lookupField rec "dcf" = Option.none) :
    dcfSection Option.none = DcfDisplay.warning
    ∧ dcfSection (some rec) = DcfDisplay.metric (Except.ok 0) (stockPriceValue rec) := by
  refine ⟨rfl, ?_⟩
  simp [dcfSection, dcfMetricValue, h, pyFloat]

/-- Witness for C1 (amended) at a concrete payload lacking the "dcf" field. -/
theorem C1_missing_dcf_renders_zero_witness :
    lookupField [("Stock Price", PyVal.num 7)] "dcf" = Option.none
    ∧ (dcfSection Option.none = DcfDisplay.warning
       ∧ dcfSection (some [("Stock Price", PyVal.num 7)])
         = DcfDisplay.metric (Except.ok 0) (stockPriceValue [("Stock Price", PyVal.num 7)])) :=
  ⟨by simp +decide [lookupField],
   C1_missing_dcf_renders_zero _ (by simp +decide [lookupField])⟩

/-- C2 counterexample: the claim says zero values are skipped as invalid so
that the latest-first series [(2023, 0), (2022, 100)] leaves one valid point
and an undefined result. The pipeline keeps the zero (dropna removes only
non-numeric cells), so the computed latest growth is the number -100, not a
skipped or erroneous outcome. -/
theorem C2_counterexample :
    latestGrowth [⟨"2023-12-31", PyVal.num 0⟩, ⟨"2022-12-31", PyVal.num 100⟩]
      = GrowthOutcome.value (PFloat.val (-100))
    ∧ GrowthOutcome.value (PFloat.val (-100)) ≠ GrowthOutcome.skipped
    ∧ GrowthOutcome.value (PFloat.val (-100)) ≠ GrowthOutcome.indexError := by
  refine ⟨?_, by simp, by simp⟩
  norm_num +decide [latestGrowth, growthValues, growthPairs, sortedValues, sortByYear,
    insertByYear, yearLt, charListLt, cleanReports, toNumeric, yearOf, pctChange1]

/-- C2 (amended): the cleaning step skips only non-numeric values; a zero
metric value is retained as a valid data point, so the latest-first series
[(2023, 0), (2022, 100)] yields -100 percent rather than an undefined
result. -/
theorem C2_zero_counts_as_valid (r : Report) (reports : List Report)
    (h1 : r ∈ reports) (h2 : toNumeric r.metricValue = some 0) :
    (yearOf r, (0:ℚ)) ∈ cleanReports reports
    ∧ latestGrowth [⟨"2023-12-31", PyVal.num 0⟩, ⟨"2022-12-31", PyVal.num 100⟩]
      = GrowthOutcome.value (PFloat.val (-100)) := by
  constructor
  · unfold cleanReports
    rw [List.mem_filterMap]
    exact ⟨r, h1, by simp [h2]⟩
  · norm_num +decide [latestGrowth, growthValues, growthPairs, sortedValues, sortByYear,
      insertByYear, yearLt, charListLt, cleanReports, toNumeric, yearOf, pctChange1]

/-- Witness for C2 (amended) at the concrete zero-valued report of the
example series. -/
theorem C2_zero_counts_as_valid_witness :
    (⟨"2023-12-31", PyVal.num 0⟩ : Report)
      ∈ ([⟨"2023-12-31", PyVal.num 0⟩, ⟨"2022-12-31", PyVal.num 100⟩] : List Report)
    ∧ toNumeric (PyVal.num 0) = some 0
    ∧ ((yearOf ⟨"2023-12-31", PyVal.num 0⟩, (0:ℚ))
        ∈ cleanReports [⟨"2023-12-31", PyVal.num 0⟩, ⟨"2022-12-31", PyVal.num 100⟩]
       ∧ latestGrowth [⟨"2023-12-31", PyVal.num 0⟩, ⟨"2022-12-31", PyVal.num 100⟩]
         = GrowthOutcome.value (PFloat.val (-100))) :=
  ⟨List.mem_cons_self _ _, rfl,
   C2_zero_counts_as_valid _ _ (List.mem_cons_self _ _) rfl⟩

/-- C3 counterexample: the claim says the previous-period divisor is never
zero because non-positive values are excluded. They are not excluded: for the
series [(2022, 0), (2023, 100)] the zero is used as a divisor, and the
unguarded division by zero produces IEEE +inf, which even survives dropna and
is reported as the latest growth. -/
theorem C3_counterexample :
    (0:ℚ) ∈ divisorsUsed [⟨"2022-12-31", PyVal.num 0⟩, ⟨"2023-12-31", PyVal.num 100⟩]
    ∧ latestGrowth [⟨"2022-12-31", PyVal.num 0⟩, ⟨"2023-12-31", PyVal.num 100⟩]
      = GrowthOutcome.value PFloat.inf := by
  constructor
  · norm_num +decide [divisorsUsed, sortedValues, sortByYear, insertByYear, yearLt,
      charListLt, cleanReports, toNumeric, yearOf]
  · norm_num +decide [latestGrowth, growthValues, growthPairs, sortedValues, sortByYear,
      insertByYear, yearLt, charListLt, cleanReports, toNumeric, yearOf, pctChange1]

/-- C3 (amended): the cleaning step guards only against non-numeric values,
so the division is guarded exactly by the absence of zeros from the cleaned
column: whenever zero does not occur among the cleaned metric values, no
pct_change divisor is zero. -/
theorem C3_nonzero_guard (reports : List Report)
    (h : (0:ℚ) ∉ (cleanReports reports).map (fun p => p.2)) :
    (0:ℚ) ∉ divisorsUsed reports := by
  intro h0
  apply h
  have h1 : (0:ℚ) ∈ sortedValues reports := List.dropLast_subset _ h0
  unfold sortedValues at h1
  rcases List.mem_map.mp h1 with ⟨p, hp, hp2⟩
  exact List.mem_map.mpr ⟨p, (mem_sortByYear p (cleanReports reports)).mp hp, hp2⟩

/-- Witness for C3 (amended) at a concrete all-positive series. -/
theorem C3_nonzero_guard_witness :
    (0:ℚ) ∉ (cleanReports [⟨"2022-12-31", PyVal.num 80⟩, ⟨"2023-12-31", PyVal.num 100⟩]).map
        (fun p => p.2)
    ∧ (0:ℚ) ∉ divisorsUsed [⟨"2022-12-31", PyVal.num 80⟩, ⟨"2023-12-31", PyVal.num 100⟩] := by
  have h : (0:ℚ) ∉ (cleanReports [⟨"2022-12-31", PyVal.num 80⟩,
      ⟨"2023-12-31", PyVal.num 100⟩]).map (fun p => p.2) := by
    norm_num [cleanReports, toNumeric, yearOf]
  exact ⟨h, C3_nonzero_guard _ h⟩

/-- C4 (code bug): with two annual reports of which only one has a numeric
metric value, the report-count guard (which counts raw reports, not valid
points) passes, every growth row is then dropped, and `iloc[-1]` on the empty
column raises IndexError — the screener neither reports an undefined result
nor renders N/A. -/
theorem C4_insufficient_valid_points_raises :
    latestGrowth [⟨"2023-12-31", PyVal.str "None"⟩, ⟨"2022-12-31", PyVal.str "100"⟩]
      = GrowthOutcome.indexError
    ∧ 2 ≤ ([⟨"2023-12-31", PyVal.str "None"⟩, ⟨"2022-12-31", PyVal.str "100"⟩] : List Report).length := by
  constructor
  · norm_num +decide [latestGrowth, growthValues, growthPairs, sortedValues, sortByYear,
      insertByYear, yearLt, charListLt, cleanReports, toNumeric, yearOf, pctChange1,
      parseRat?, stripChars, splitAtDot, natOfDigits]
  · simp

/-- C8: for the fixed series [(2023, 100), (2022, 80)] the Growth Calculator
reports exactly 25, the percentage change ((latest - previous) / previous)
* 100 between the most recent valid value and the next most recent one. -/
theorem C8_fixed_series_growth :
    latestGrowth [⟨"2023-12-31", PyVal.num 100⟩, ⟨"2022-12-31", PyVal.num 80⟩]
      = GrowthOutcome.value (PFloat.val 25)
    ∧ pctChange1 80 100 = PFloat.val ((100 - 80) / 80 * 100) := by
  constructor
  · norm_num +decide [latestGrowth, growthValues, growthPairs, sortedValues, sortByYear,
      insertByYear, yearLt, charListLt, cleanReports, toNumeric, yearOf, pctChange1]
  · norm_num [pctChange1]

/-- C5: the threshold-band classifier is total and deterministic with bands
inclusive on the lower bound and exclusive on the upper bound: a growth value
is Weak exactly when it is below 10, Moderate exactly on [10, 20) and Strong
exactly on [20, ∞) — so every input gets exactly one label with no gaps —
with exactly 10 classifying as the middle band and exactly 20 as the top
band; and (per the spec-modelled P/E bands) a P/E of exactly 15 is fairly
valued, not undervalued. -/
theorem C5_threshold_bands :
    (∀ q : ℚ,
      (color_coded_growth_text (PFloat.val q) = GrowthLabel.weak ↔ q < 10)
      ∧ (color_coded_growth_text (PFloat.val q) = GrowthLabel.moderate ↔ 10 ≤ q ∧ q < 20)
      ∧ (color_coded_growth_text (PFloat.val q) = GrowthLabel.strong ↔ 20 ≤ q))
    ∧ color_coded_growth_text (PFloat.val 10) = GrowthLabel.moderate
    ∧ color_coded_growth_text (PFloat.val 20) = GrowthLabel.strong
    ∧ classifyPE 15 = PELabel.fairlyValued := by
  refine ⟨fun q => ⟨?_, ?_, ?_⟩, by norm_num [color_coded_growth_text],
    by norm_num [color_coded_growth_text], by norm_num [classifyPE]⟩
  · by_cases h1 : q < 10
    · simp [color_coded_growth_text, h1]
    · by_cases h2 : q < 20 <;> simp [color_coded_growth_text, h1, h2]
  · by_cases h1 : q < 10
    · simp [color_coded_growth_text, h1]
    · by_cases h2 : q < 20
      · simp [color_coded_growth_text, h1, h2]
        linarith
      · simp [color_coded_growth_text, h1, h2]
  · by_cases h1 : q < 10
    · simp [color_coded_growth_text, h1]
      linarith
    · by_cases h2 : q < 20
      · simp [color_coded_growth_text, h1, h2]
      · simp [color_coded_growth_text, h1, h2]
        linarith

/-- C6: sector-name matching (modelled from the spec: normalization trims
whitespace and lowercases, then requires exact equality) is case- and
whitespace-insensitive — the targets "Financial Services",
" financial services " and "FINANCIAL SERVICES" all resolve to the same
benchmark entry of any benchmark table. -/
theorem C6_sector_matching (benchmarks : List (String × ℚ)) :
    sectorLookup benchmarks " financial services "
      = sectorLookup benchmarks "Financial Services"
    ∧ sectorLookup benchmarks "FINANCIAL SERVICES"
      = sectorLookup benchmarks "Financial Services" :=
  ⟨sectorLookup_congr benchmarks _ _ (by decide),
   sectorLookup_congr benchmarks _ _ (by decide)⟩

/-- C7: in relative classification mode (modelled from the spec) the verdict
is overvalued exactly when the entity value strictly exceeds the benchmark
and undervalued exactly when it is less than or equal — ties resolve to
undervalued; entity 30 versus benchmark 20 is overvalued and entity 15
versus benchmark 20 is undervalued. -/
theorem C7_relative_mode :
    (∀ e b : ℚ, (relativeVerdict e b = RelVerdict.overvalued ↔ b < e)
      ∧ (relativeVerdict e b = RelVerdict.undervalued ↔ e ≤ b))
    ∧ relativeVerdict 30 20 = RelVerdict.overvalued
    ∧ relativeVerdict 15 20 = RelVerdict.undervalued
    ∧ relativeVerdict 20 20 = RelVerdict.undervalued := by
  refine ⟨fun e b => ?_, by norm_num [relativeVerdict], by norm_num [relativeVerdict],
    by norm_num [relativeVerdict]⟩
  unfold relativeVerdict
  by_cases h : b < e
  · simp only [gt_iff_lt, h, if_pos]
    constructor
    · simp
    · simp
      linarith
  · simp only [gt_iff_lt, h, if_neg, not_false_iff]
    constructor
    · simp [h]
    · simp [le_of_not_lt h]

/-- C9 counterexample: the claim says metric extraction never raises and
signals absence on type-mismatched input. In the Growth Stock Screener the
guard admits every value other than None and the exact string "N/A", so the
unguarded `float(...)` call raises an uncaught exception on the record whose
priceToSalesRatio field holds the non-convertible string "n/a". -/
theorem C9_counterexample :
    growthRatioDisplay [("priceToSalesRatio", PyVal.str "n/a")] "priceToSalesRatio"
      = FmpRatioDisplay.raised := by
  simp +decide [growthRatioDisplay, lookupField, pyFloat, parseRat?, stripChars,
    splitAtDot, natOfDigits]

/-- C9 (amended): the RATIO_GUIDANCE display loop never raises — a missing
key is skipped, and a coercion failure is caught and falls back to printing
the raw value (not zero) — but the Growth Stock Screener ratio display guards
only None and the exact string "N/A" and raises on any other non-convertible
value. -/
theorem C9_extraction_contract (rec : Record) (key : String) (v : PyVal)
    (hpresent : lookupField rec key = some v) (hfail : pyFloat v = Except.error ()) :
    ratioGuidanceDisplay rec key = RatioDisplay.rawFallback v
    ∧ (∀ rec2 key2, lookupField rec2 key2 = Option.none →
        ratioGuidanceDisplay rec2 key2 = RatioDisplay.skippedKey)
    ∧ growthRatioDisplay [("priceToSalesRatio", PyVal.str "n/a")] "priceToSalesRatio"
      = FmpRatioDisplay.raised := by
  refine ⟨?_, ?_, ?_⟩
  · simp [ratioGuidanceDisplay, hpresent, hfail]
  · intro rec2 key2 h
    simp [ratioGuidanceDisplay, h]
  · simp +decide [growthRatioDisplay, lookupField, pyFloat, parseRat?, stripChars,
      splitAtDot, natOfDigits]

/-- Witness for C9 (amended) at a concrete record whose field holds a
non-convertible string. -/
theorem C9_extraction_contract_witness :
    lookupField [("currentRatio", PyVal.str "strong")] "currentRatio"
      = some (PyVal.str "strong")
    ∧ pyFloat (PyVal.str "strong") = Except.error ()
    ∧ (ratioGuidanceDisplay [("currentRatio", PyVal.str "strong")] "currentRatio"
        = RatioDisplay.rawFallback (PyVal.str "strong")
       ∧ (∀ rec2 key2, lookupField rec2 key2 = Option.none →
           ratioGuidanceDisplay rec2 key2 = RatioDisplay.skippedKey)
       ∧ growthRatioDisplay [("priceToSalesRatio", PyVal.str "n/a")] "priceToSalesRatio"
         = FmpRatioDisplay.raised) := by
  have h1 : lookupField [("currentRatio", PyVal.str "strong")] "currentRatio"
      = some (PyVal.str "strong") := by
    simp +decide [lookupField]
  have h2 : pyFloat (PyVal.str "strong") = Except.error () := by
    simp +decide [pyFloat, parseRat?, stripChars, splitAtDot, natOfDigits]
  exact ⟨h1, h2, C9_extraction_contract _ _ _ h1 h2⟩

/-- C10: for every non-NaN cell the chart bar color and the textual label of
`color_coded_growth_text` agree — green exactly when the text says Strong,
orange exactly when Moderate, red exactly when Weak. -/
theorem C10_color_text_agreement (x : PFloat) (h : x ≠ PFloat.nan) :
    (growth_color x = BarColor.green ↔ color_coded_growth_text x = GrowthLabel.strong)
    ∧ (growth_color x = BarColor.orange ↔ color_coded_growth_text x = GrowthLabel.moderate)
    ∧ (growth_color x = BarColor.red ↔ color_coded_growth_text x = GrowthLabel.weak) := by
  cases x with
  | nan => exact absurd rfl h
  | inf => simp [growth_color, color_coded_growth_text]
  | ninf => simp [growth_color, color_coded_growth_text]
  | val q =>
    by_cases h1 : q < 10
    · have h2 : ¬ 10 ≤ q := not_le.mpr h1
      have h3 : ¬ 20 ≤ q := by
        intro hc
        linarith
      simp [growth_color, color_coded_growth_text, h1, h2, h3]
    · by_cases h2 : q < 20
      · have h10 : 10 ≤ q := not_lt.mp h1
        have h20 : ¬ 20 ≤ q := not_le.mpr h2
        simp [growth_color, color_coded_growth_text, h1, h2, h10, h20]
      · have h20 : 20 ≤ q := not_lt.mp h2
        simp [growth_color, color_coded_growth_text, h1, h2, h20]

/-- Witness for C10 at the concrete non-NaN growth value 15. -/
theorem C10_color_text_agreement_witness :
    (PFloat.val 15 ≠ PFloat.nan)
    ∧ ((growth_color (PFloat.val 15) = BarColor.green
        ↔ color_coded_growth_text (PFloat.val 15) = GrowthLabel.strong)
       ∧ (growth_color (PFloat.val 15) = BarColor.orange
        ↔ color_coded_growth_text (PFloat.val 15) = GrowthLabel.moderate)
       ∧ (growth_color (PFloat.val 15) = BarColor.red
        ↔ color_coded_growth_text (PFloat.val 15) = GrowthLabel.weak)) :=
  ⟨by simp, C10_color_text_agreement (PFloat.val 15) (by simp)⟩
